import Mathlib

/-!
Shallow embedding of the chat services in this repository:

* `src/thread/app.py` — the stateful variant: a FastAPI app with a global
  `previous_summarization` string, endpoints `POST /api/chat` and
  `POST /api/demo`, helper functions `create_system_prompt` and
  `generate_summarization`, and a synchronous `OpenAIService.completion`
  collaborator.
* `src/sdk/app.py` together with `src/streaming/helpers.py` — the basic
  variant: per-message validation via `is_valid_message`, a fixed system
  prompt, and an opaque 500 error message on completion failure.

Completion calls are modelled by an explicit deterministic client function;
an exception raised by the client is an `Except.error` carrying the string
that Python would produce as `str(error)`.  The global summary state is passed
explicitly: an endpoint maps (client, current global summary, request body)
to (HTTP outcome, new global summary).
-/

/-- The apostrophe character, kept out of string literals. -/
def apos : String := (Char.ofNat 39).toString

/-- A role-tagged chat message: the `{"role": ..., "content": ...}`
dictionaries exchanged with the completion API. -/
structure Msg where
  role : String
  content : String
deriving DecidableEq

/-- The `OpenAIService.completion(messages, model, stream)` collaborator of
`src/thread/openai_service.py`, as a deterministic function.  A successful
call yields the assistant message `response["choices"][0]["message"]`; a
raised exception is `Except.error (str(error))`. -/
def CompletionClient : Type := List Msg → String → Bool → Except String Msg

/-- The model identifier used for the user-facing responder call in
`src/thread/app.py` (`"gpt-4o"`). -/
def responder_model : String := "gpt-4o"

/-- The model identifier used for the summarizer call in
`src/thread/app.py` (`"gpt-4o-mini"`). -/
def summarizer_model : String := "gpt-4o-mini"

/-- The fixed persona text preceding the optional summary block in
`create_system_prompt` of `src/thread/app.py`. -/
def sys_prompt_pre : String :=
  "You are Alice, a helpful assistant who speaks using as few words as possible. \n        "

/-- The fixed text following the optional summary block in
`create_system_prompt` of `src/thread/app.py`. -/
def sys_prompt_post : String :=
  " \n        Let" ++ apos ++ "s chat!"

/-- The delimited summary block inserted into the system prompt when the
summary is non-empty (`src/thread/app.py`, `create_system_prompt`). -/
def summary_block (summarization : String) : String :=
  "Here is a summary of the conversation so far: \n    <conversation_summary>\n      "
    ++ summarization ++ "\n    </conversation_summary>"

/-- `create_system_prompt` of `src/thread/app.py`: the system message, with
the summary block included exactly when `summarization` is truthy
(non-empty). -/
def create_system_prompt (summarization : String) : Msg :=
  { role := "system",
    content := sys_prompt_pre
      ++ (if summarization = "" then "" else summary_block summarization)
      ++ sys_prompt_post }

/-- The directive message built inside `generate_summarization` of
`src/thread/app.py`; `previous_summarization or "No previous summary"`
becomes the conditional on emptiness. -/
def summarization_prompt (prev : String) (user_message assistant_response : Msg) : Msg :=
  { role := "system",
    content := "Please summarize the following conversation in a concise manner:\n<previous_summary>"
      ++ (if prev = "" then "No previous summary" else prev)
      ++ "</previous_summary>\n<current_turn> User: "
      ++ user_message.content
      ++ "\nAssistant: "
      ++ assistant_response.content
      ++ " </current_turn>\n" }

/-- The exact two-message list `generate_summarization` submits to the
completion client. -/
def summarization_request (prev : String) (u a : Msg) : List Msg :=
  [summarization_prompt prev u a,
   { role := "user", content := "Please create/update our conversation summary." }]

/-- `generate_summarization` of `src/thread/app.py`: submit the two-message
list with model `"gpt-4o-mini"` and `stream=False`, extract the assistant
text.  A client failure propagates as the raised exception does. -/
def generate_summarization (client : CompletionClient) (prev : String) (u a : Msg) :
    Except String String :=
  (client (summarization_request prev u a) summarizer_model false).map fun m => m.content

/-- An HTTP error outcome: `HTTPException(status_code, detail)`. -/
structure HttpError where
  status : Nat
  detail : String
deriving DecidableEq

/-- The `POST /api/chat` handler of `src/thread/app.py`.  Input: the client,
the current value of the global `previous_summarization`, and the request
messages.  Output: the HTTP outcome (the assistant message on 200, or the
`HTTPException`) paired with the value of the global after the handler.
The handler uses only `request.messages[0]`; any exception in the `try`
block becomes `HTTPException(500, str(error))`, and the global is assigned
only after both completion calls succeed. -/
def chat (client : CompletionClient) (prev : String) (messages : List Msg) :
    Except HttpError Msg × String :=
  match messages with
  | [] => (Except.error { status := 400, detail := "No messages provided" }, prev)
  | m0 :: _ =>
    match client [create_system_prompt prev, m0] responder_model false with
    | Except.error e => (Except.error { status := 500, detail := e }, prev)
    | Except.ok assistant_msg =>
      match generate_summarization client prev m0 assistant_msg with
      | Except.error e => (Except.error { status := 500, detail := e }, prev)
      | Except.ok new_summary => (Except.ok assistant_msg, new_summary)

/-- The three hardcoded user turns of `POST /api/demo` in
`src/thread/app.py`. -/
def demo_messages : List Msg :=
  [{ role := "user", content := "Hi! I" ++ apos ++ "m Adam" },
   { role := "user", content := "How are you?" },
   { role := "user", content := "Do you know my name?" }]

/-- The loop body of `POST /api/demo`: each turn builds the system prompt
from the current summary, requests a responder completion, updates the
summary; any exception aborts the endpoint with a 500 carrying
`str(error)`.  `acc` is the `assistant_response` variable (initially
`None`); the endpoint finally returns its last value. -/
def demo_loop (client : CompletionClient) :
    List Msg → String → Option Msg → Except HttpError (Option Msg) × String
  | [], prev, acc => (Except.ok acc, prev)
  | m :: rest, prev, _ =>
    match client [create_system_prompt prev, m] responder_model false with
    | Except.error e => (Except.error { status := 500, detail := e }, prev)
    | Except.ok a =>
      match generate_summarization client prev m a with
      | Except.error e => (Except.error { status := 500, detail := e }, prev)
      | Except.ok new_summary => demo_loop client rest new_summary (some a)

/-- The `POST /api/demo` handler of `src/thread/app.py`. -/
def demo (client : CompletionClient) (prev : String) :
    Except HttpError (Option Msg) × String :=
  demo_loop client demo_messages prev none

/-- A JSON scalar as it reaches the sdk handler: the duck-typed message
dictionaries may hold strings or non-strings (e.g. numbers) as values. -/
inductive JValue where
  | str : String → JValue
  | num : Int → JValue
deriving DecidableEq

/-- A duck-typed message dictionary: an association list of keys to JSON
scalars. -/
abbrev JMsg : Type := List (String × JValue)

/-- Key lookup in a message dictionary (message content lookup and the k-in-message test). -/
def lookup_key (m : JMsg) (k : String) : Option JValue :=
  match m with
  | [] => none
  | (k2, v) :: rest => if k2 = k then some v else lookup_key rest k

/-- `is_valid_message` of `src/streaming/helpers.py`: the argument is a
dict (always true in this model), has a `role` key, has a `content` key,
and the content value is a string.  The role value itself is never
inspected. -/
def is_valid_message (message : JMsg) : Bool :=
  (lookup_key message "role").isSome &&
    match lookup_key message "content" with
    | some (JValue.str _) => true
    | some (JValue.num _) => false
    | none => false

/-- The async `OpenAIService.completion` collaborator of
`src/sdk/openai_service.py`, called by the sdk handler with only a message
list (default model), as a deterministic function. -/
def SdkClient : Type := List JMsg → Except String Msg

/-- The fixed system prompt prepended by the sdk `chat` handler. -/
def sdk_system_prompt : JMsg :=
  [("role", JValue.str "system"),
   ("content", JValue.str "You are a helpful assistant who speaks using as fewest words as possible.")]

/-- The opaque detail string of the 500 response of the sdk handler. -/
def sdk_generic_error : String := "An error occurred while processing your request"

/-- The `POST /api/chat` handler of `src/sdk/app.py`: empty message list →
400; any message failing `is_valid_message` → 400; otherwise the completion
result is returned, with any completion exception mapped to a 500 whose
detail is the fixed generic string (the cause is logged, not surfaced). -/
def sdk_chat (client : SdkClient) (messages : List JMsg) : Except HttpError Msg :=
  if messages = [] then
    Except.error { status := 400, detail := "Invalid or missing messages in request body" }
  else if !(messages.all is_valid_message) then
    Except.error { status := 400, detail := "Invalid message format in request body" }
  else
    match client (sdk_system_prompt :: messages) with
    | Except.ok answer => Except.ok answer
    | Except.error _ => Except.error { status := 500, detail := sdk_generic_error }

/-- A stub completion client that always answers with a fixed assistant
message, used to exercise success paths on concrete inputs. -/
def okClient : CompletionClient := fun _ _ _ => Except.ok { role := "assistant", content := "ok" }

/-- A stub completion client that always fails, as a raised exception with
text `"boom"`. -/
def failClient : CompletionClient := fun _ _ _ => Except.error "boom"

/-- A stub client for which the responder call (model `"gpt-4o"`) succeeds
while the summarizer call (model `"gpt-4o-mini"`) raises. -/
def respondOnlyClient : CompletionClient := fun _ model _ =>
  if model = responder_model then Except.ok { role := "assistant", content := "Hello there" }
  else Except.error "summarizer down"

/-- A stub sdk client that always answers with a fixed assistant message. -/
def okSdkClient : SdkClient := fun _ => Except.ok { role := "assistant", content := "ok" }

/-- A stub sdk client that always raises. -/
def failSdkClient : SdkClient := fun _ => Except.error "upstream timeout"

/-- `starts_with pat l` holds when `pat` is an initial segment of `l`. -/
def starts_with : List Char → List Char → Bool
  | [], _ => true
  | _ :: _, [] => false
  | a :: as, b :: bs => a == b && starts_with as bs

/-- `occurs_within pat l` holds when `pat` occurs contiguously inside `l`. -/
def occurs_within (pat : List Char) : List Char → Bool
  | [] => starts_with pat []
  | c :: rest => starts_with pat (c :: rest) || occurs_within pat rest

/-- C10: the stateful `/api/chat` handler uses only `messages[0]`: on any
request with at least one message, the HTTP outcome and the new summary are
identical to those of the request holding only the first message. -/
theorem chat_uses_only_first_message (client : CompletionClient) (prev : String)
    (m : Msg) (rest : List Msg) :
    chat client prev (m :: rest) = chat client prev [m] := rfl

/-- C2: whenever the stateful `/api/chat` handler fails — a 400, a responder
failure or a summarizer failure — the stored summary after the turn equals
the summary before the turn. -/
theorem chat_failure_preserves_summary (client : CompletionClient) (prev : String)
    (messages : List Msg) (e : HttpError)
    (h : (chat client prev messages).1 = Except.error e) :
    (chat client prev messages).2 = prev := by
  cases messages with
  | nil => rfl
  | cons m0 rest =>
    unfold chat
    cases hr : client [create_system_prompt prev, m0] responder_model false with
    | error e2 => simp [hr]
    | ok a =>
      cases hs : generate_summarization client prev m0 a with
      | error e2 => simp [hr, hs]
      | ok s =>
        exfalso
        simp [chat, hr, hs] at h

/-- Witness for C2 at a concrete failing client. -/
theorem chat_failure_preserves_summary_witness :
    (chat failClient "old summary" [{ role := "user", content := "hi" }]).1
        = Except.error { status := 500, detail := "boom" } ∧
    (chat failClient "old summary" [{ role := "user", content := "hi" }]).2 = "old summary" :=
  ⟨rfl, chat_failure_preserves_summary failClient "old summary" _ _ rfl⟩

/-- C3: the summary update is a function of the triple (previous summary,
user content, assistant content) alone: with the same deterministic client
and the same previous summary, messages agreeing on `content` — whatever
their other fields — produce identical results. -/
theorem generate_summarization_content_only (client : CompletionClient) (prev : String)
    (u a u2 a2 : Msg) (hu : u.content = u2.content) (ha : a.content = a2.content) :
    generate_summarization client prev u a = generate_summarization client prev u2 a2 := by
  unfold generate_summarization summarization_request summarization_prompt
  rw [hu, ha]

/-- Witness for C3: same contents under different roles give the same
summary result. -/
theorem generate_summarization_content_only_witness :
    ((⟨"user", "x"⟩ : Msg).content = (⟨"assistant", "x"⟩ : Msg).content) ∧
    generate_summarization okClient "s" ⟨"user", "x"⟩ ⟨"assistant", "y"⟩
      = generate_summarization okClient "s" ⟨"assistant", "x"⟩ ⟨"user", "y"⟩ :=
  ⟨rfl, generate_summarization_content_only okClient "s" _ _ _ _ rfl rfl⟩

/-- C1 (divergence witness): with a client whose responder call succeeds
and whose summarizer call raises, the handler returns HTTP 500 carrying the
summarizer failure — the successful assistant message is discarded rather
than returned — while the summary is left unchanged. -/
theorem chat_summarizer_failure_discards_answer :
    respondOnlyClient [create_system_prompt "old", { role := "user", content := "hi" }]
        responder_model false = Except.ok { role := "assistant", content := "Hello there" } ∧
    chat respondOnlyClient "old" [{ role := "user", content := "hi" }]
      = (Except.error { status := 500, detail := "summarizer down" }, "old") :=
  ⟨rfl, rfl⟩

/-- C7 (counterexample): in the stateful variant the 500 body is
`str(error)`, so two different underlying exceptions produce two different
response bodies — the body is neither opaque nor independent of the cause. -/
theorem chat_500_detail_depends_on_exception :
    (chat (fun _ _ _ => Except.error "auth key invalid") "" [{ role := "user", content := "hi" }]).1
        = Except.error { status := 500, detail := "auth key invalid" } ∧
    (chat (fun _ _ _ => Except.error "rate limited") "" [{ role := "user", content := "hi" }]).1
        = Except.error { status := 500, detail := "rate limited" } ∧
    ("auth key invalid" : String) ≠ "rate limited" :=
  ⟨rfl, rfl, by decide⟩

/-- C6 (counterexample): a message whose role is the unrecognized string
`"wizard"` passes validation and yields a 200 with the assistant message,
not a 400. -/
theorem sdk_chat_accepts_unrecognized_role :
    sdk_chat okSdkClient [[("role", JValue.str "wizard"), ("content", JValue.str "hi")]]
      = Except.ok { role := "assistant", content := "ok" } := rfl

/-- C4: the system prompt is a system-role message; when the summary is
non-empty its content is the fixed persona text, then the delimited block
holding the summary verbatim, then the fixed closing text; when the summary
is empty the content is just the fixed persona text and closing text, with
no `<conversation_summary>` block anywhere in it. -/
theorem create_system_prompt_spec (s : String) :
    (create_system_prompt s).role = "system" ∧
    (s ≠ "" →
      (create_system_prompt s).content
        = sys_prompt_pre
            ++ ("Here is a summary of the conversation so far: \n    <conversation_summary>\n      "
                ++ s ++ "\n    </conversation_summary>")
            ++ sys_prompt_post) ∧
    (s = "" →
      (create_system_prompt s).content = sys_prompt_pre ++ sys_prompt_post ∧
      occurs_within "<conversation_summary>".data (create_system_prompt s).content.data = false) := by
  refine ⟨rfl, ?_, ?_⟩
  · intro hne
    simp [create_system_prompt, summary_block, hne]
  · intro he
    subst he
    exact ⟨by decide, by decide⟩

/-- Witness for C4 at a concrete non-empty summary and at the empty
summary. -/
theorem create_system_prompt_spec_witness :
    ((("mysummary" : String) == "") = false ∧
      (create_system_prompt "mysummary").content
        = sys_prompt_pre
            ++ ("Here is a summary of the conversation so far: \n    <conversation_summary>\n      "
                ++ "mysummary" ++ "\n    </conversation_summary>")
            ++ sys_prompt_post) ∧
    ((create_system_prompt "").content = sys_prompt_pre ++ sys_prompt_post ∧
      occurs_within "<conversation_summary>".data (create_system_prompt "").content.data = false) :=
  ⟨⟨by decide, (create_system_prompt_spec "mysummary").2.1 (by decide)⟩,
   (create_system_prompt_spec "").2.2 rfl⟩

/-- C5: the summary update submits exactly two messages, with the
summarizer model (distinct from the responder model) and `stream=False`;
the first message embeds the previous summary verbatim, or the literal
marker `No previous summary` when the previous summary is empty, together
with the labeled user and assistant contents; the second message is the
fixed refresh instruction. -/
theorem summarization_call_spec (client : CompletionClient) (prev : String) (u a : Msg) :
    (summarization_request prev u a).length = 2 ∧
    (summarizer_model == responder_model) = false ∧
    generate_summarization client prev u a
      = (client (summarization_request prev u a) summarizer_model false).map (fun m => m.content) ∧
    (summarization_request prev u a).head? = some (summarization_prompt prev u a) ∧
    (summarization_prompt prev u a).content
      = "Please summarize the following conversation in a concise manner:\n<previous_summary>"
          ++ (if prev = "" then "No previous summary" else prev)
          ++ "</previous_summary>\n<current_turn> User: " ++ u.content
          ++ "\nAssistant: " ++ a.content ++ " </current_turn>\n" ∧
    (summarization_request prev u a).getLast?
      = some { role := "user", content := "Please create/update our conversation summary." } :=
  ⟨rfl, by decide, rfl, rfl, rfl, rfl⟩

/-- C6 (amended): the sdk handler answers 400 exactly when the message list
is empty or some message fails `is_valid_message`; a message is valid
exactly when it has a `role` key — whose value is never checked against a
set of recognized roles — and a string-valued `content`; a non-empty,
all-valid request is answered with the completion result (200 with the
assistant message when the client succeeds). -/
theorem sdk_chat_validation (client : SdkClient) (messages : List JMsg) (m : JMsg) :
    ((∃ d, sdk_chat client messages = Except.error { status := 400, detail := d }) ↔
      (messages = [] ∨ messages.all is_valid_message = false)) ∧
    (is_valid_message m = true ↔
      ((lookup_key m "role").isSome = true ∧ ∃ s, lookup_key m "content" = some (JValue.str s))) ∧
    (∀ a, messages ≠ [] → messages.all is_valid_message = true →
      client (sdk_system_prompt :: messages) = Except.ok a →
      sdk_chat client messages = Except.ok a) := by
  refine ⟨?_, ?_, ?_⟩
  · by_cases h1 : messages = []
    · simp [sdk_chat, h1]
    · by_cases h2 : messages.all is_valid_message
      · rw [iff_false_intro h1, iff_false_intro (by simp [h2] : ¬messages.all is_valid_message = false)]
        simp only [or_false, iff_false]
        rintro ⟨d, hd⟩
        rw [sdk_chat, if_neg h1, h2] at hd
        cases hc : client (sdk_system_prompt :: messages) with
        | ok ans => rw [hc] at hd; exact Except.noConfusion hd
        | error e =>
          rw [hc] at hd
          simp at hd
      · constructor
        · intro _
          exact Or.inr (by simpa using h2)
        · intro _
          refine ⟨"Invalid message format in request body", ?_⟩
          rw [sdk_chat, if_neg h1]
          simp [h2]
  · unfold is_valid_message
    cases hr : lookup_key m "role" with
    | none => simp
    | some v =>
      cases hc : lookup_key m "content" with
      | none => simp
      | some w => cases w with
        | str s => simp
        | num n => simp
  · intro a h1 h2 hc
    rw [sdk_chat, if_neg h1, h2]
    simp [hc]

/-- Witness for C6 at the concrete valid request of the test
vector. -/
theorem sdk_chat_validation_witness :
    sdk_chat okSdkClient [[("role", JValue.str "user"), ("content", JValue.str "hi")]]
      = Except.ok { role := "assistant", content := "ok" } :=
  (sdk_chat_validation okSdkClient
      [[("role", JValue.str "user"), ("content", JValue.str "hi")]] []).2.2
    { role := "assistant", content := "ok" } (by decide) (by decide) rfl

/-- C7 (amended): when the completion client raises, the sdk handler
answers 500 with the fixed opaque detail, whatever the exception was; the
stateful handler instead answers 500 whose detail is `str(error)` of the
underlying exception, for both the responder and the summarizer call. -/
theorem handler_failure_response_bodies (clientS : SdkClient) (client : CompletionClient)
    (messages : List JMsg) (prev : String) (m0 : Msg) (rest : List Msg) (e : String) :
    (messages ≠ [] → messages.all is_valid_message = true →
      clientS (sdk_system_prompt :: messages) = Except.error e →
      sdk_chat clientS messages = Except.error { status := 500, detail := sdk_generic_error }) ∧
    (client [create_system_prompt prev, m0] responder_model false = Except.error e →
      (chat client prev (m0 :: rest)).1 = Except.error { status := 500, detail := e }) ∧
    (∀ a, client [create_system_prompt prev, m0] responder_model false = Except.ok a →
      generate_summarization client prev m0 a = Except.error e →
      (chat client prev (m0 :: rest)).1 = Except.error { status := 500, detail := e }) := by
  refine ⟨?_, ?_, ?_⟩
  · intro h1 h2 hc
    rw [sdk_chat, if_neg h1, h2]
    simp [hc]
  · intro hc
    simp [chat, hc]
  · intro a hc hs
    simp [chat, hc, hs]

/-- Witness for C7: the sdk opaque 500 and the stateful leaking 500 at
concrete failing clients. -/
theorem handler_failure_response_bodies_witness :
    sdk_chat failSdkClient [[("role", JValue.str "user"), ("content", JValue.str "hi")]]
      = Except.error { status := 500, detail := sdk_generic_error } ∧
    (chat failClient "" [{ role := "user", content := "hi" }]).1
      = Except.error { status := 500, detail := "boom" } ∧
    (chat respondOnlyClient "old" [{ role := "user", content := "hi" }]).1
      = Except.error { status := 500, detail := "summarizer down" } :=
  ⟨(handler_failure_response_bodies failSdkClient okClient
      [[("role", JValue.str "user"), ("content", JValue.str "hi")]] ""
      { role := "user", content := "hi" } [] "upstream timeout").1
        (by decide) (by decide) rfl,
   (handler_failure_response_bodies failSdkClient failClient [] ""
      { role := "user", content := "hi" } [] "boom").2.1 rfl,
   (handler_failure_response_bodies failSdkClient respondOnlyClient [] "old"
      { role := "user", content := "hi" } [] "summarizer down").2.2
        { role := "assistant", content := "Hello there" } rfl rfl⟩

/-- Iterating the `/api/chat` turn handler over a list of single-message
requests, threading the summary, and keeping the last assistant message;
the reference behavior `/api/demo` is compared against. -/
def run_turns (client : CompletionClient) :
    List Msg → String → Option Msg → Except HttpError (Option Msg) × String
  | [], prev, acc => (Except.ok acc, prev)
  | m :: rest, prev, _ =>
    match chat client prev [m] with
    | (Except.ok a, s2) => run_turns client rest s2 (some a)
    | (Except.error e, s2) => (Except.error e, s2)

theorem demo_loop_eq_run_turns (client : CompletionClient) (l : List Msg)
    (prev : String) (acc : Option Msg) :
    demo_loop client l prev acc = run_turns client l prev acc := by
  induction l generalizing prev acc with
  | nil => rfl
  | cons m rest ih =>
    cases hr : client [create_system_prompt prev, m] responder_model false with
    | error e => simp [demo_loop, run_turns, chat, hr]
    | ok a =>
      cases hs : generate_summarization client prev m a with
      | error e => simp [demo_loop, run_turns, chat, hr, hs]
      | ok s2 => simp [demo_loop, run_turns, chat, hr, hs, ih]

/-- C9: `/api/demo` runs exactly the three fixed hardcoded user turns,
each through the same turn-handling sequence as `/api/chat` with the
summary threaded between turns, and a successful invocation returns the
assistant message of the third and final turn. -/
theorem demo_spec (client : CompletionClient) (prev : String) :
    demo_messages =
      [{ role := "user", content := "Hi! I" ++ apos ++ "m Adam" },
       { role := "user", content := "How are you?" },
       { role := "user", content := "Do you know my name?" }] ∧
    demo client prev = run_turns client demo_messages prev none ∧
    (∀ r s, demo client prev = (Except.ok r, s) →
      ∃ a1 s1 a2 s2 a3,
        chat client prev [{ role := "user", content := "Hi! I" ++ apos ++ "m Adam" }]
          = (Except.ok a1, s1) ∧
        chat client s1 [{ role := "user", content := "How are you?" }] = (Except.ok a2, s2) ∧
        chat client s2 [{ role := "user", content := "Do you know my name?" }] = (Except.ok a3, s) ∧
        r = some a3) := by
  refine ⟨rfl, demo_loop_eq_run_turns client demo_messages prev none, ?_⟩
  intro r s h
  have h2 : run_turns client demo_messages prev none = (Except.ok r, s) := by
    rw [← demo_loop_eq_run_turns]; exact h
  rw [show demo_messages =
      [{ role := "user", content := "Hi! I" ++ apos ++ "m Adam" },
       { role := "user", content := "How are you?" },
       { role := "user", content := "Do you know my name?" }] from rfl] at h2
  rw [run_turns] at h2
  cases hc1 : chat client prev [{ role := "user", content := "Hi! I" ++ apos ++ "m Adam" }] with
  | mk o1 s1 =>
    rw [hc1] at h2
    cases o1 with
    | error e => simp at h2
    | ok a1 =>
      simp only [] at h2
      rw [run_turns] at h2
      cases hc2 : chat client s1 [{ role := "user", content := "How are you?" }] with
      | mk o2 s2 =>
        rw [hc2] at h2
        cases o2 with
        | error e => simp at h2
        | ok a2 =>
          simp only [] at h2
          rw [run_turns] at h2
          cases hc3 : chat client s2 [{ role := "user", content := "Do you know my name?" }] with
          | mk o3 s3 =>
            rw [hc3] at h2
            cases o3 with
            | error e => simp at h2
            | ok a3 =>
              simp only [run_turns, Prod.mk.injEq, Except.ok.injEq] at h2
              exact ⟨a1, s1, a2, s2, a3, rfl, hc2, h2.2 ▸ hc3, h2.1.symm⟩

/-- Witness for C9: with the fixed stub client the demo returns the third
turn answer and the summary produced by the third summarizer call. -/
theorem demo_spec_witness :
    demo okClient "" = (Except.ok (some { role := "assistant", content := "ok" }), "ok") ∧
    (∃ a1 s1 a2 s2 a3,
      chat okClient "" [{ role := "user", content := "Hi! I" ++ apos ++ "m Adam" }]
        = (Except.ok a1, s1) ∧
      chat okClient s1 [{ role := "user", content := "How are you?" }] = (Except.ok a2, s2) ∧
      chat okClient s2 [{ role := "user", content := "Do you know my name?" }] = (Except.ok a3, "ok") ∧
      some { role := "assistant", content := "ok" } = some a3) :=
  ⟨rfl, (demo_spec okClient "").2.2 (some { role := "assistant", content := "ok" }) "ok" rfl⟩
